import Mathlib

/-!
Verification of the Fincalc personal-finance calculators (src/fincalc.py).

The repository is a single-page Streamlit app with four independent,
inline calculations: a budget summarizer (tab1), a savings-goal solver
(tab2), a loan/EMI calculator with amortization schedule (tab3), and an
investment growth simulator (tab4).  Each is embedded here as a pure
function over exact arithmetic: Python floats are modelled as ℚ where the
source only uses field operations (tab1, tab3) and as ℝ where the source
uses transcendental functions (np.log in tab2, fractional powers in tab4).
Python's ZeroDivisionError is modelled by an Except value; the explicit
st.error branch of tab2 is modelled by a dedicated result constructor.
datetime.now() — read once per invocation and threaded through the
projection loops as the first date — is modelled by an explicit clock
parameter (days since an arbitrary epoch, advanced by 30 per month, as the
source adds timedelta(days=30)).
-/

namespace Fincalc

/-! ## Budget summarizer (tab1, src/fincalc.py lines 57-59)

The source computes total_expenses = sum(expenses.values()) over the
category→amount dict and balance = income - total_expenses.  The dict is
modelled as an association list of category names and amounts. -/

/-- Sum of all expense category values: line 58, sum(expenses.values()). -/
def total_expenses (expenses : List (String × ℚ)) : ℚ :=
  (expenses.map Prod.snd).sum

/-- Remaining balance: line 59, income - total_expenses. -/
def budget_balance (income : ℚ) (expenses : List (String × ℚ)) : ℚ :=
  income - total_expenses expenses

/-! ## Loan / EMI calculator (tab3, src/fincalc.py lines 188-223) -/

/-- Failure of a calculation: Python raises ZeroDivisionError when a float
division has zero divisor.  The source never raises anything else. -/
inductive CalcError where
  | zeroDivision : CalcError
deriving DecidableEq, Repr

/-- One row of the amortization table: lines 220-223. -/
structure AmortEntry where
  month : ℕ
  principal_payment : ℚ
  interest_payment : ℚ
  remaining_balance : ℚ
deriving DecidableEq, Repr

/-- Result of the EMI calculation: lines 194-197 plus the schedule. -/
structure LoanResult where
  emi : ℚ
  total_payment : ℚ
  total_interest : ℚ
  schedule : List AmortEntry
deriving DecidableEq, Repr

/-- Amortization loop, lines 213-223: starting from the current balance,
for each of k months compute interest_payment = balance * monthly_rate,
principal_payment = emi - interest_payment, subtract the principal from
the balance, and record the balance clamped to 0 when it is not positive
(line 223: current_balance if current_balance > 0 else 0). -/
def amortLoop (emi mr : ℚ) : ℚ → ℕ → ℕ → List AmortEntry
  | _, _, 0 => []
  | bal, month, k + 1 =>
    let interest := bal * mr
    let princ := emi - interest
    let bal' := bal - princ
    ⟨month, princ, interest, if 0 < bal' then bal' else 0⟩ ::
      amortLoop emi mr bal' (month + 1) k

/-- The running (unclamped) balance after k iterations of the loop of
lines 215-218, used to reason about amortLoop. -/
def balIter (emi mr : ℚ) : ℚ → ℕ → ℚ
  | bal, 0 => bal
  | bal, k + 1 => balIter emi mr (bal - (emi - bal * mr)) k

/-- EMI formula, lines 189-194: monthly_rate = rate/12/100; with zero rate
emi = principal / months, otherwise the annuity formula
principal * mr * (1+mr)^n / ((1+mr)^n - 1).  The tenure is an integer
(years*12 + months in the source); the power is an integer power. -/
def loanEmi (principal rate : ℚ) (n : ℤ) : ℚ :=
  let mr := rate / 12 / 100
  if mr = 0 then principal / (n : ℚ)
  else principal * mr * (1 + mr) ^ n / ((1 + mr) ^ n - 1)

/-- Whether the emi computation of lines 191-194 divides by zero (Python
would raise ZeroDivisionError there). -/
def loanDividesByZero (rate : ℚ) (n : ℤ) : Prop :=
  let mr := rate / 12 / 100
  if mr = 0 then (n : ℚ) = 0 else (1 + mr) ^ n - 1 = 0

instance (rate : ℚ) (n : ℤ) : Decidable (loanDividesByZero rate n) := by
  unfold loanDividesByZero
  exact inferInstance

/-- The whole tab3 computation, lines 188-223: the emi (lines 189-194),
total_payment = emi * n and total_interest = total_payment - principal
(lines 196-197), and the amortization schedule starting at month 1 from
balance = principal (lines 213-223).  A zero divisor in the emi formula
is a ZeroDivisionError in Python, hence an error value here. -/
def computeLoan (principal rate : ℚ) (n : ℤ) : Except CalcError LoanResult :=
  if loanDividesByZero rate n then .error .zeroDivision
  else
    let mr := rate / 12 / 100
    let emi := loanEmi principal rate n
    .ok ⟨emi, emi * n, emi * n - principal, amortLoop emi mr principal 1 n.toNat⟩

/-- P holds of the value of a successful computation; failure refutes it. -/
def onOk {α : Type} (P : α → Prop) : Except CalcError α → Prop
  | .ok a => P a
  | .error _ => False

/-! ## Savings-goal solver (tab2, src/fincalc.py lines 111-143) -/

/-- Result of the tab2 button handler: the st.error branch for
monthly_savings ≤ 0 (lines 112-113), the st.success "already reached"
branch for remaining ≤ 0 (lines 116-117), the crash of line 129 when the
month formula produced nan or -inf (int(np.ceil(...)) raises ValueError
on nan, OverflowError on an infinity, and the handler aborts with no
result), or the computed month count together with the projection series
of (date, amount) pairs. -/
inductive SavingsResult where
  | invalidInput : SavingsResult
  | alreadyMet : SavingsResult
  | valueError : SavingsResult
  | timeToGoal (months : ℤ) (series : List (ℤ × ℝ)) : SavingsResult

/-- Projection loop of lines 134-143: k iterations, each recording the
current (date, amount) and then advancing the date by 30 days and the
amount by amount * (1 + monthly_rate) + monthly_savings. -/
noncomputable def savingsProj (mr ms : ℝ) : ℤ → ℝ → ℕ → List (ℤ × ℝ)
  | _, _, 0 => []
  | d, amount, k + 1 =>
    (d, amount) :: savingsProj mr ms (d + 30) (amount * (1 + mr) + ms) k

/-- The tab2 calculation, lines 111-143.  Inputs are as entered in the UI:
interest_rate and inflation_rate are annual percentages (the source
divides them by 100).  now is the datetime.now() reading of line 136, in
days.  Validation order is the source's: monthly_savings ≤ 0 errors out
first (line 112); only then is remaining = goal - current tested (line
116).  Otherwise real_interest_rate = (1+i/100)/(1+f/100) - 1 (line 120),
monthly_rate = real_interest_rate/12 (line 121), months is
remaining/monthly_savings at zero rate and otherwise
log(1 + monthly_rate*remaining/monthly_savings)/log(1 + monthly_rate)
(lines 124-127), then max(1, ceil(months)) (line 129), and the projection
runs months+1 iterations starting from current_savings (lines 134-143).

When monthly_rate ≠ 0 and 1 + monthly_rate*remaining/monthly_savings ≤ 0
(reachable from the sliders when inflation exceeds interest and
remaining/monthly_savings is large), np.log at line 127 yields nan for a
negative argument and -inf for zero, months becomes nan or an infinity,
and int(np.ceil(months)) at line 129 raises (ValueError on nan,
OverflowError on an infinity): the handler crashes with no result,
modelled by the valueError outcome.  This is the only numeric fault
reachable from the UI inputs (interest 0-20 and inflation 0-10 keep
1 + inflation/100 ≥ 1 and 1 + monthly_rate > 0, so the rate computation
of line 120 and the log of 1 + monthly_rate never fault there); outside
the slider ranges this model is not float-faithful. -/
noncomputable def solveSavingsGoal
    (goal_amount monthly_savings current_savings interest_rate inflation_rate : ℝ)
    (now : ℤ) : SavingsResult :=
  if monthly_savings ≤ 0 then .invalidInput
  else if goal_amount - current_savings ≤ 0 then .alreadyMet
  else
    let remaining := goal_amount - current_savings
    let real_interest_rate := (1 + interest_rate / 100) / (1 + inflation_rate / 100) - 1
    let monthly_rate := real_interest_rate / 12
    if monthly_rate ≠ 0 ∧ 1 + (monthly_rate * remaining) / monthly_savings ≤ 0 then
      .valueError
    else
      let m : ℝ :=
        if monthly_rate = 0 then remaining / monthly_savings
        else Real.log (1 + (monthly_rate * remaining) / monthly_savings) /
          Real.log (1 + monthly_rate)
      let months : ℤ := max 1 (Int.ceil m)
      .timeToGoal months
        (savingsProj monthly_rate monthly_savings now current_savings (months.toNat + 1))

/-- Numeric content of a tab2 result: the month count and the projected
amounts, without the wall-clock dates. -/
def savingsNumeric : SavingsResult → Option (ℤ × List ℝ)
  | .invalidInput => none
  | .alreadyMet => some (0, [])
  | .valueError => none
  | .timeToGoal months series => some (months, series.map Prod.snd)

/-! ## Investment growth simulator (tab4, src/fincalc.py lines 270-314) -/

/-- One recorded row of the tab4 simulation: the date and the running
nominal value, inflation-adjusted value and cumulative contributions
(lines 290-293). -/
structure InvState where
  date : ℤ
  nominal : ℝ
  real_value : ℝ
  contrib_total : ℝ

/-- Generic record-then-step loop: n+1 records of the states
s, f s, ..., f^[n] s.  This is the shape of the tab4 loop (lines
289-299): each iteration appends the current state and, except after the
last record, applies the update. -/
def simLoop {α : Type} (f : α → α) : α → ℕ → List α
  | s, 0 => [s]
  | s, n + 1 => s :: simLoop f (f s) n

/-- One month's update, lines 296-299: date advances 30 days,
nominal_value = nominal_value * (1 + monthly_return) + monthly_contribution,
real_value = real_value * (1 + real_monthly_return) + monthly_contribution,
total_contributions += monthly_contribution. -/
def invStep (mR rR c : ℝ) (s : InvState) : InvState :=
  ⟨s.date + 30, s.nominal * (1 + mR) + c, s.real_value * (1 + rR) + c,
    s.contrib_total + c⟩

/-- The tab4 simulation, lines 271-299.  annual_return and
annual_inflation are percentages; monthly rates use twelfth-root
compounding (lines 272-273), real_monthly_return =
(1+monthly_return)/(1+monthly_inflation) - 1 (line 276).  All three
running values start at initial_investment (lines 285-287); now is the
datetime.now() reading of line 284, in days. -/
noncomputable def simulateInvestment
    (initial_investment monthly_contribution : ℝ) (years : ℕ)
    (annual_return annual_inflation : ℝ) (now : ℤ) : List InvState :=
  let months := years * 12
  let monthly_return := (1 + annual_return / 100) ^ ((1 : ℝ) / 12) - 1
  let monthly_inflation := (1 + annual_inflation / 100) ^ ((1 : ℝ) / 12) - 1
  let real_monthly_return := (1 + monthly_return) / (1 + monthly_inflation) - 1
  simLoop (invStep monthly_return real_monthly_return monthly_contribution)
    ⟨now, initial_investment, initial_investment, initial_investment⟩ months

/-- Numeric content of one tab4 record, without the wall-clock date. -/
def invNumeric (s : InvState) : ℝ × ℝ × ℝ :=
  (s.nominal, s.real_value, s.contrib_total)

/-- Summary of lines 310-314: from the last record, nominal growth =
final_nominal - total_contributed and real growth = final_real -
total_contributed.  (The series is never empty, so the none case is
unreachable.) -/
noncomputable def investmentReport
    (initial_investment monthly_contribution : ℝ) (years : ℕ)
    (annual_return annual_inflation : ℝ) (now : ℤ) : ℝ × ℝ :=
  match (simulateInvestment initial_investment monthly_contribution years
      annual_return annual_inflation now).getLast? with
  | some s => (s.nominal - s.contrib_total, s.real_value - s.contrib_total)
  | none => (0, 0)

end Fincalc

namespace Fincalc

/-! ## Helper lemmas about the amortization loop -/

theorem clamp_eq_max (x : ℚ) : (if 0 < x then x else 0) = max x 0 := by
  rcases lt_or_le 0 x with h | h
  · rw [if_pos h, max_eq_left h.le]
  · rw [if_neg (not_lt.mpr h), max_eq_right h]

theorem amortLoop_length (emi mr : ℚ) :
    ∀ (k : ℕ) (bal : ℚ) (month : ℕ), (amortLoop emi mr bal month k).length = k := by
  intro k
  induction k with
  | zero => intro bal month; rfl
  | succ k ih => intro bal month; simp [amortLoop, ih]

theorem amortLoop_balance_nonneg (emi mr : ℚ) :
    ∀ (k : ℕ) (bal : ℚ) (month : ℕ),
    ∀ e ∈ amortLoop emi mr bal month k, 0 ≤ e.remaining_balance := by
  intro k
  induction k with
  | zero => intro bal month e he; simp [amortLoop] at he
  | succ k ih =>
    intro bal month e he
    simp only [amortLoop, List.mem_cons] at he
    rcases he with rfl | he
    · dsimp only
      split
      · linarith
      · exact le_refl 0
    · exact ih _ _ e he

theorem amortLoop_balance_chain (emi mr : ℚ) (hmr : 0 ≤ mr) :
    ∀ (k : ℕ) (bal : ℚ) (month : ℕ), bal * mr ≤ emi →
    List.Chain (fun a b => b ≤ a) (max bal 0)
      ((amortLoop emi mr bal month k).map (fun e => e.remaining_balance)) := by
  intro k
  induction k with
  | zero => intro bal month _; exact List.Chain.nil
  | succ k ih =>
    intro bal month h
    have hle : bal - (emi - bal * mr) ≤ bal := by linarith
    have h' : (bal - (emi - bal * mr)) * mr ≤ emi :=
      le_trans (mul_le_mul_of_nonneg_right hle hmr) h
    simp only [amortLoop, List.map_cons]
    rw [clamp_eq_max]
    exact List.Chain.cons (max_le_max hle le_rfl) (ih _ (month + 1) h')

theorem amortLoop_principal_sum (emi mr : ℚ) :
    ∀ (k : ℕ) (bal : ℚ) (month : ℕ),
    ((amortLoop emi mr bal month k).map (fun e => e.principal_payment)).sum
      = bal - balIter emi mr bal k := by
  intro k
  induction k with
  | zero => intro bal month; simp [amortLoop, balIter]
  | succ k ih =>
    intro bal month
    simp only [amortLoop, List.map_cons, List.sum_cons, ih]
    rw [show balIter emi mr bal (k + 1)
        = balIter emi mr (bal - (emi - bal * mr)) k from rfl]
    ring

theorem amortLoop_get_balance (emi mr : ℚ) :
    ∀ (k i : ℕ) (bal : ℚ) (month : ℕ), i < k →
    ((amortLoop emi mr bal month k)[i]?).map (fun e => e.remaining_balance)
      = some (if 0 < balIter emi mr bal (i + 1) then balIter emi mr bal (i + 1)
          else 0) := by
  intro k
  induction k with
  | zero => intro i bal month h; omega
  | succ k ih =>
    intro i bal month h
    cases i with
    | zero =>
      rw [show amortLoop emi mr bal month (k + 1)
          = ⟨month, emi - bal * mr, bal * mr,
              if 0 < bal - (emi - bal * mr) then bal - (emi - bal * mr) else 0⟩ ::
            amortLoop emi mr (bal - (emi - bal * mr)) (month + 1) k from rfl]
      rw [List.getElem?_cons_zero]
      rw [show balIter emi mr bal 1 = bal - (emi - bal * mr) from rfl]
      rfl
    | succ i =>
      have h' : i < k := by omega
      rw [show amortLoop emi mr bal month (k + 1)
          = ⟨month, emi - bal * mr, bal * mr,
              if 0 < bal - (emi - bal * mr) then bal - (emi - bal * mr) else 0⟩ ::
            amortLoop emi mr (bal - (emi - bal * mr)) (month + 1) k from rfl]
      rw [List.getElem?_cons_succ]
      rw [ih i (bal - (emi - bal * mr)) (month + 1) h']
      rw [show balIter emi mr bal (i + 1 + 1)
          = balIter emi mr (bal - (emi - bal * mr)) (i + 1) from rfl]

theorem balIter_closed_form (emi mr : ℚ) (hmr : mr ≠ 0) :
    ∀ (k : ℕ) (bal : ℚ),
    balIter emi mr bal k = bal * (1 + mr) ^ k - emi * (((1 + mr) ^ k - 1) / mr) := by
  intro k
  induction k with
  | zero => intro bal; simp [balIter]
  | succ k ih =>
    intro bal
    rw [show balIter emi mr bal (k + 1)
        = balIter emi mr (bal - (emi - bal * mr)) k from rfl, ih]
    field_simp
    ring

/-! ## Helper lemmas about the record-then-step loop -/

theorem simLoop_length {α : Type} (f : α → α) :
    ∀ (n : ℕ) (s : α), (simLoop f s n).length = n + 1 := by
  intro n
  induction n with
  | zero => intro s; rfl
  | succ n ih => intro s; simp [simLoop, ih]

theorem simLoop_get {α : Type} (f : α → α) :
    ∀ (n m : ℕ) (s : α), m ≤ n → (simLoop f s n)[m]? = some (f^[m] s) := by
  intro n
  induction n with
  | zero =>
    intro m s h
    rw [Nat.le_zero.mp h]
    rfl
  | succ n ih =>
    intro m s h
    cases m with
    | zero =>
      rw [show simLoop f s (n + 1) = s :: simLoop f (f s) n from rfl,
        List.getElem?_cons_zero, Function.iterate_zero_apply]
    | succ m =>
      rw [show simLoop f s (n + 1) = s :: simLoop f (f s) n from rfl,
        List.getElem?_cons_succ, ih m (f s) (by omega),
        Function.iterate_succ_apply]

theorem simLoop_getLast {α : Type} (f : α → α) :
    ∀ (n : ℕ) (s : α), (simLoop f s n).getLast? = some (f^[n] s) := by
  intro n
  induction n with
  | zero => intro s; rfl
  | succ n ih =>
    intro s
    rw [show simLoop f s (n + 1) = s :: simLoop f (f s) n from rfl]
    cases n with
    | zero => rfl
    | succ n =>
      rw [show simLoop f (f s) (n + 1) = f s :: simLoop f (f (f s)) n from rfl,
        List.getLast?_cons_cons,
        ← show simLoop f (f s) (n + 1) = f s :: simLoop f (f (f s)) n from rfl,
        ih (f s), ← Function.iterate_succ_apply]

/-! ## Helper lemmas about the EMI formula branches -/

theorem not_loanDividesByZero (r : ℚ) (n : ℤ) (hn : 1 ≤ n) (hr : 0 ≤ r) :
    ¬ loanDividesByZero r n := by
  unfold loanDividesByZero
  dsimp only
  split
  · intro h
    have hn0 : n = 0 := by exact_mod_cast h
    omega
  · rename_i hmr
    have hmr0 : 0 ≤ r / 12 / 100 :=
      div_nonneg (div_nonneg hr (by norm_num)) (by norm_num)
    have hmr' : 0 < r / 12 / 100 := lt_of_le_of_ne hmr0 (Ne.symm hmr)
    have h1 : 1 < (1 + r / 12 / 100) ^ n := one_lt_zpow₀ (by linarith) (by omega)
    intro h
    linarith

theorem computeLoan_eq_ok (p r : ℚ) (n : ℤ) (hn : 1 ≤ n) (hr : 0 ≤ r) :
    computeLoan p r n
      = .ok ⟨loanEmi p r n, loanEmi p r n * n, loanEmi p r n * n - p,
          amortLoop (loanEmi p r n) (r / 12 / 100) p 1 n.toNat⟩ := by
  unfold computeLoan
  rw [if_neg (not_loanDividesByZero r n hn hr)]

theorem loanEmi_lower (p r : ℚ) (n : ℤ) (hp : 0 < p) (hr : 0 ≤ r) (hn : 1 ≤ n) :
    p * (r / 12 / 100) ≤ loanEmi p r n := by
  unfold loanEmi
  dsimp only
  have hmr0 : 0 ≤ r / 12 / 100 :=
    div_nonneg (div_nonneg hr (by norm_num)) (by norm_num)
  split
  · rename_i h
    rw [h, mul_zero]
    have hn' : (0 : ℚ) < (n : ℚ) := by exact_mod_cast (by omega : (0 : ℤ) < n)
    exact le_of_lt (div_pos hp hn')
  · rename_i h
    have hmr : 0 < r / 12 / 100 := lt_of_le_of_ne hmr0 (Ne.symm h)
    have hq : 1 < (1 + r / 12 / 100) ^ n := one_lt_zpow₀ (by linarith) (by omega)
    have hq0 : 0 < (1 + r / 12 / 100) ^ n - 1 := by linarith
    rw [le_div_iff₀ hq0]
    nlinarith [mul_pos hp hmr]

/-! ## Helper lemmas about the investment loop and projection -/

theorem invStep_iterate_contrib (mR rR c : ℝ) :
    ∀ (m : ℕ) (s : InvState),
    ((invStep mR rR c)^[m] s).contrib_total = s.contrib_total + m * c := by
  intro m
  induction m with
  | zero => intro s; simp
  | succ m ih =>
    intro s
    rw [Function.iterate_succ_apply, ih]
    simp only [invStep]
    push_cast
    ring

theorem invNumeric_invStep (mR rR c : ℝ) (s s' : InvState)
    (h : invNumeric s = invNumeric s') :
    invNumeric (invStep mR rR c s) = invNumeric (invStep mR rR c s') := by
  simp only [invNumeric, invStep, Prod.mk.injEq] at h ⊢
  obtain ⟨h1, h2, h3⟩ := h
  rw [h1, h2, h3]
  exact ⟨rfl, rfl, rfl⟩

theorem simLoop_invStep_numeric (mR rR c : ℝ) :
    ∀ (n : ℕ) (s s' : InvState), invNumeric s = invNumeric s' →
    (simLoop (invStep mR rR c) s n).map invNumeric
      = (simLoop (invStep mR rR c) s' n).map invNumeric := by
  intro n
  induction n with
  | zero => intro s s' h; simp [simLoop, h]
  | succ n ih =>
    intro s s' h
    have hstep := invNumeric_invStep mR rR c s s' h
    simp only [simLoop, List.map_cons, h]
    rw [ih _ _ hstep]

theorem savingsProj_snd (mr ms : ℝ) :
    ∀ (k : ℕ) (d d' : ℤ) (a : ℝ),
    (savingsProj mr ms d a k).map Prod.snd
      = (savingsProj mr ms d' a k).map Prod.snd := by
  intro k
  induction k with
  | zero => intro d d' a; rfl
  | succ k ih =>
    intro d d' a
    simp only [savingsProj, List.map_cons]
    rw [ih (d + 30) (d' + 30) (a * (1 + mr) + ms)]

/-! ## Claim C3: budget summarizer -/

/-- C3: for every income value and every expense mapping — all category
values, zeros included, and even negative values — the budget summarizer
returns totalExpenses equal to the sum of all expense values and balance
equal to income minus totalExpenses; both are total functions, so the
computation never fails. -/
theorem budget_summary_correct (income : ℚ) (expenses : List (String × ℚ)) :
    total_expenses expenses = (expenses.map Prod.snd).sum ∧
    budget_balance income expenses = income - (expenses.map Prod.snd).sum :=
  ⟨rfl, rfl⟩

/-! ## Claim C2: amortization schedule invariants -/

/-- C2: for every principal > 0, annualInterestRate ≥ 0 and
totalTenureMonths ≥ 1, the loan calculator succeeds and its amortization
schedule has one entry per month, every recorded remainingBalance is ≥ 0
(negative running balances are recorded as 0), and the recorded
remainingBalance sequence is non-increasing from the first month to the
last. -/
theorem loan_schedule_invariants (p r : ℚ) (n : ℤ)
    (hp : 0 < p) (hr : 0 ≤ r) (hn : 1 ≤ n) :
    onOk (fun L =>
      (∀ e ∈ L.schedule, 0 ≤ e.remaining_balance) ∧
      List.Chain' (fun a b => b ≤ a)
        (L.schedule.map (fun e => e.remaining_balance)) ∧
      L.schedule.length = n.toNat)
      (computeLoan p r n) := by
  rw [computeLoan_eq_ok p r n hn hr]
  simp only [onOk]
  refine ⟨amortLoop_balance_nonneg _ _ _ _ _, ?_, amortLoop_length _ _ _ _ _⟩
  have hmr0 : 0 ≤ r / 12 / 100 :=
    div_nonneg (div_nonneg hr (by norm_num)) (by norm_num)
  have hchain := amortLoop_balance_chain (loanEmi p r n) (r / 12 / 100) hmr0
    n.toNat p 1 (loanEmi_lower p r n hp hr hn)
  have hchain' : List.Chain' (fun a b => b ≤ a)
      (max p 0 :: (amortLoop (loanEmi p r n) (r / 12 / 100) p 1 n.toNat).map
        (fun e => e.remaining_balance)) := hchain
  exact hchain'.tail

/-- C2 witness: the invariants at principal 100, zero rate, 12 months. -/
theorem loan_schedule_invariants_witness :
    (0 : ℚ) < 100 ∧ (0 : ℚ) ≤ 0 ∧ (1 : ℤ) ≤ 12 ∧
    onOk (fun L =>
      (∀ e ∈ L.schedule, 0 ≤ e.remaining_balance) ∧
      List.Chain' (fun a b => b ≤ a)
        (L.schedule.map (fun e => e.remaining_balance)) ∧
      L.schedule.length = (12 : ℤ).toNat)
      (computeLoan 100 0 12) :=
  ⟨by norm_num, le_refl 0, by norm_num,
    loan_schedule_invariants 100 0 12 (by norm_num) (le_refl 0) (by norm_num)⟩

/-! ## Claim C10: the EMI computation never divides by zero -/

/-- C10: for annualInterestRate > 0 and totalTenureMonths ≥ 1 the EMI
denominator (1+monthlyRate)^n - 1 is strictly positive; for rate 0 the
zero-rate branch divides by the nonzero tenure; hence for tenure ≥ 1 and
nonnegative rate the computation is total and returns a result. -/
theorem emi_division_safe (p r : ℚ) (n : ℤ) (hn : 1 ≤ n) (hr : 0 ≤ r) :
    (0 < r → 0 < (1 + r / 12 / 100) ^ n - 1) ∧
    ((r : ℚ) = 0 → (n : ℚ) ≠ 0) ∧
    onOk (fun _ => True) (computeLoan p r n) := by
  refine ⟨?_, ?_, ?_⟩
  · intro hrpos
    have hmr : 0 < r / 12 / 100 := by positivity
    have hq : 1 < (1 + r / 12 / 100) ^ n := one_lt_zpow₀ (by linarith) (by omega)
    linarith
  · intro _ h
    have hn0 : n = 0 := by exact_mod_cast h
    omega
  · rw [computeLoan_eq_ok p r n hn hr]
    exact trivial

/-- C10 witness: division safety at principal 100, rate 12, 6 months. -/
theorem emi_division_safe_witness :
    (1 : ℤ) ≤ 6 ∧ (0 : ℚ) ≤ 12 ∧
    ((0 : ℚ) < 12 → 0 < (1 + (12 : ℚ) / 12 / 100) ^ (6 : ℤ) - 1) ∧
    (((12 : ℚ)) = 0 → ((6 : ℤ) : ℚ) ≠ 0) ∧
    onOk (fun _ => True) (computeLoan 100 12 6) := by
  refine ⟨by norm_num, by norm_num, ?_⟩
  exact emi_division_safe 100 12 6 (by norm_num) (by norm_num)

/-! ## Claim C6: tenure validation in the loan calculator

The source has no tenure validation at all: lines 188-197 compute the EMI
directly from the slider values (which force totalTenureMonths ≥ 12), and
no InvalidInput error exists anywhere in tab3.  At tenure 0 the formula
divides by zero; at negative tenure with a nonzero rate it happily
returns a (meaningless) result, so the calculator does not fail for every
tenure ≤ 0. -/

/-- C6 counterexample: at principal 20000, rate 7.5 and tenure -1 the
computation succeeds and returns a result, refuting the claim that every
input with totalTenureMonths ≤ 0 fails with InvalidInput and returns no
result. -/
theorem loan_negative_tenure_returns_result :
    onOk (fun _ => True) (computeLoan 20000 (15 / 2) (-1)) := by
  unfold computeLoan
  rw [if_neg ?_]
  · exact trivial
  · unfold loanDividesByZero
    dsimp only
    rw [if_neg (by norm_num : ¬ ((15 : ℚ) / 2 / 12 / 100 = 0))]
    rw [show ((-1 : ℤ)) = -(1 : ℤ) from rfl, zpow_neg, zpow_one]
    norm_num

/-- C6 amended: the loan calculator performs no input validation and has
no InvalidInput error.  At totalTenureMonths = 0 it fails with a
division-by-zero error; for every totalTenureMonths ≥ 1 with
annualInterestRate ≥ 0 it returns a complete result. -/
theorem loan_tenure_behaviour :
    (∀ p r : ℚ, computeLoan p r 0 = .error .zeroDivision) ∧
    (∀ (p r : ℚ) (n : ℤ), 1 ≤ n → 0 ≤ r →
      onOk (fun _ => True) (computeLoan p r n)) := by
  constructor
  · intro p r
    unfold computeLoan
    rw [if_pos]
    unfold loanDividesByZero
    dsimp only
    split
    · norm_num
    · rw [zpow_zero]
      norm_num
  · intro p r n hn hr
    rw [computeLoan_eq_ok p r n hn hr]
    exact trivial

/-- C6 amended witness: tenure 0 fails with division by zero; tenure 1 at
zero rate returns a result. -/
theorem loan_tenure_behaviour_witness :
    computeLoan 1 0 0 = .error .zeroDivision ∧
    ((1 : ℤ) ≤ 1 ∧ (0 : ℚ) ≤ 0 ∧ onOk (fun _ => True) (computeLoan 1 0 1)) :=
  ⟨loan_tenure_behaviour.1 1 0,
    le_refl 1, le_refl 0, loan_tenure_behaviour.2 1 0 1 (le_refl 1) (le_refl 0)⟩

/-! ## Claim C7: the concrete 20000 / 7.5% / 60-month loan -/

theorem balIter_loanEmi_zero (p mr : ℚ) (k : ℕ) (hmr : mr ≠ 0)
    (hq : (1 + mr) ^ k ≠ 1) :
    balIter (p * mr * (1 + mr) ^ k / ((1 + mr) ^ k - 1)) mr p k = 0 := by
  rw [balIter_closed_form _ _ hmr]
  have h1 : (1 + mr) ^ k - 1 ≠ 0 := sub_ne_zero.mpr hq
  field_simp
  ring

/-- C7: for principal 20000, annual rate 7.5 and tenure 60 months, the
schedule's remaining balance at month 60 is within 1e-6 of 0 and the sum
of the 60 principal payments is within 1e-6 of 20000.  In this exact
arithmetic model of the float computation both quantities are exact: the
final balance is exactly 0 and the principal payments sum to exactly
20000, so the claimed tolerances hold. -/
theorem loan_20000_endpoint :
    onOk (fun L =>
      (∃ b, (L.schedule[59]?).map (fun e => e.remaining_balance) = some b ∧
        |b| ≤ 1 / 1000000) ∧
      |(L.schedule.map (fun e => e.principal_payment)).sum - 20000|
        ≤ 1 / 1000000)
      (computeLoan 20000 (15 / 2) 60) := by
  rw [computeLoan_eq_ok 20000 (15 / 2) 60 (by norm_num) (by norm_num)]
  simp only [onOk]
  have hmr : (15 : ℚ) / 2 / 12 / 100 ≠ 0 := by norm_num
  have hq : (1 + (15 : ℚ) / 2 / 12 / 100) ^ (60 : ℕ) ≠ 1 :=
    ne_of_gt (one_lt_pow₀ (by norm_num) (by norm_num))
  have hemi : loanEmi 20000 (15 / 2) 60
      = 20000 * ((15 : ℚ) / 2 / 12 / 100) * (1 + (15 : ℚ) / 2 / 12 / 100) ^ (60 : ℕ)
        / ((1 + (15 : ℚ) / 2 / 12 / 100) ^ (60 : ℕ) - 1) := by
    unfold loanEmi
    rw [if_neg hmr]
    rw [show ((60 : ℤ)) = ((60 : ℕ) : ℤ) from rfl, zpow_natCast]
  have hzero : balIter (loanEmi 20000 (15 / 2) 60) ((15 : ℚ) / 2 / 12 / 100)
      20000 60 = 0 := by
    rw [hemi]
    exact balIter_loanEmi_zero 20000 ((15 : ℚ) / 2 / 12 / 100) 60 hmr hq
  constructor
  · refine ⟨0, ?_, by norm_num⟩
    have hget := amortLoop_get_balance (loanEmi 20000 (15 / 2) 60)
      ((15 : ℚ) / 2 / 12 / 100) ((60 : ℤ).toNat) 59 20000 1 (by norm_num)
    rw [hget, show (59 + 1) = 60 from rfl, hzero]
    norm_num
  · have hsum := amortLoop_principal_sum (loanEmi 20000 (15 / 2) 60)
      ((15 : ℚ) / 2 / 12 / 100) ((60 : ℤ).toNat) 20000 1
    rw [hsum, show ((60 : ℤ).toNat) = 60 from rfl, hzero]
    norm_num

/-! ## Claim C1: savings-goal month count

The month formula of lines 124-127 is only computed to a number when its
log argument is positive (or the rate is zero).  When monthlyRate ≠ 0
and 1 + monthlyRate*remaining/monthlySavings ≤ 0 — reachable from the
sliders when inflation exceeds interest and remaining/monthlySavings is
large — np.log yields nan (or a -inf), and int(np.ceil(months)) at line
129 raises, so the solver returns no month count at all. -/

/-- C1 counterexample: at goal 10000, monthly savings 50, current
savings 0, interest 0%, inflation 10% (all reachable slider values),
remaining and monthlySavings are positive yet the solver crashes at line
129 instead of computing a month count: monthlyRate = -1/132 and the log
argument 1 + monthlyRate*remaining/monthlySavings = -17/33 ≤ 0, so
np.log gives nan and int(np.ceil(nan)) raises ValueError. -/
theorem savings_goal_nan_crash :
    solveSavingsGoal 10000 50 0 0 10 0 = .valueError := by
  unfold solveSavingsGoal
  rw [if_neg (by norm_num), if_neg (by norm_num)]
  dsimp only
  rw [if_pos (by norm_num)]

/-- C1 amended: for remaining = goalAmount - currentSavings > 0 and
monthlySavings > 0 the solver computes, with the fractional rates being
the percent inputs over 100 and monthlyRate =
((1+interestRate)/(1+inflationRate) - 1)/12, the real-valued month count
remaining/monthlySavings when monthlyRate = 0 and otherwise
log(1 + monthlyRate*remaining/monthlySavings)/log(1 + monthlyRate), then
rounds up to the next whole integer and clamps to a minimum of 1 —
provided monthlyRate = 0 or 1 + monthlyRate*remaining/monthlySavings > 0
(always the case when the interest rate is at least the inflation rate);
otherwise np.log yields nan or -inf and the solver crashes at line 129
with no month count. -/
theorem savings_goal_month_count
    (ga ms cs ir infl : ℝ) (now : ℤ) (hms : 0 < ms) (hrem : 0 < ga - cs)
    (hdom : ((1 + ir / 100) / (1 + infl / 100) - 1) / 12 = 0 ∨
      0 < 1 + (((1 + ir / 100) / (1 + infl / 100) - 1) / 12 * (ga - cs)) / ms) :
    ∃ series, solveSavingsGoal ga ms cs ir infl now
      = .timeToGoal
          (max 1 (Int.ceil
            (if ((1 + ir / 100) / (1 + infl / 100) - 1) / 12 = 0 then
              (ga - cs) / ms
            else
              Real.log (1 + (((1 + ir / 100) / (1 + infl / 100) - 1) / 12
                  * (ga - cs)) / ms) /
                Real.log (1 + ((1 + ir / 100) / (1 + infl / 100) - 1) / 12))))
          series := by
  unfold solveSavingsGoal
  rw [if_neg (not_le.mpr hms), if_neg (not_le.mpr hrem)]
  dsimp only
  rw [if_neg ?_]
  · exact ⟨_, rfl⟩
  · rcases hdom with h | h
    · exact fun hc => hc.1 h
    · exact fun hc => absurd hc.2 (not_le.mpr h)

/-- C1 amended witness: the month-count formula at the spec's example
input goal 10000, monthly savings 500, nothing saved, both rates zero
(zero monthly rate, so the formula's domain condition holds). -/
theorem savings_goal_month_count_witness :
    (0 : ℝ) < 500 ∧ (0 : ℝ) < 10000 - 0 ∧
    (((1 + (0 : ℝ) / 100) / (1 + (0 : ℝ) / 100) - 1) / 12 = 0 ∨
      0 < 1 + (((1 + (0 : ℝ) / 100) / (1 + (0 : ℝ) / 100) - 1) / 12
          * ((10000 : ℝ) - 0)) / 500) ∧
    ∃ series, solveSavingsGoal 10000 500 0 0 0 0
      = .timeToGoal
          (max 1 (Int.ceil
            (if ((1 + (0 : ℝ) / 100) / (1 + (0 : ℝ) / 100) - 1) / 12 = 0 then
              ((10000 : ℝ) - 0) / 500
            else
              Real.log (1 + (((1 + (0 : ℝ) / 100) / (1 + (0 : ℝ) / 100) - 1) / 12
                  * ((10000 : ℝ) - 0)) / 500) /
                Real.log (1 + ((1 + (0 : ℝ) / 100) / (1 + (0 : ℝ) / 100) - 1) / 12))))
          series :=
  ⟨by norm_num, by norm_num, Or.inl (by norm_num),
    savings_goal_month_count 10000 500 0 0 0 0 (by norm_num) (by norm_num)
      (Or.inl (by norm_num))⟩

/-! ## Claim C5: the already-met branch

The source checks monthly_savings ≤ 0 (line 112) before it tests
remaining ≤ 0 (line 116), so an input with currentSavings ≥ goalAmount
but monthlySavings ≤ 0 hits the error branch, not the already-met
branch. -/

/-- C5 counterexample: goal 100 already met by savings of 200, but with
monthlySavings = 0 the solver fails with the invalid-input error instead
of returning the already-met state. -/
theorem savings_goal_met_but_invalid :
    solveSavingsGoal 100 0 200 0 0 0 = .invalidInput := by
  unfold solveSavingsGoal
  rw [if_pos (le_refl (0 : ℝ))]

/-- C5 amended: with currentSavings ≥ goalAmount and monthlySavings > 0
the solver returns the already-met state regardless of the rates; when
monthlySavings ≤ 0 the monthly-savings validation fires first and the
solver fails with InvalidInput even if the goal is already met. -/
theorem savings_goal_already_met (ga ms cs ir infl : ℝ) (now : ℤ)
    (hms : 0 < ms) (hmet : ga ≤ cs) :
    solveSavingsGoal ga ms cs ir infl now = .alreadyMet := by
  unfold solveSavingsGoal
  rw [if_neg (not_le.mpr hms), if_pos (sub_nonpos.mpr hmet)]

/-- C5 amended witness: goal 100, current savings 100, monthly savings
50, nonzero rates. -/
theorem savings_goal_already_met_witness :
    (0 : ℝ) < 50 ∧ (100 : ℝ) ≤ 100 ∧
    solveSavingsGoal 100 50 100 3 2 0 = .alreadyMet :=
  ⟨by norm_num, le_refl 100,
    savings_goal_already_met 100 50 100 3 2 0 (by norm_num) (le_refl 100)⟩

/-! ## Claim C8: idempotence / purity

The tab2 and tab4 series embed datetime.now() (lines 136 and 284) as the
first date of the projection, so two invocations with identical form
inputs at different instants return different Date columns.  All numeric
fields are pure functions of the inputs. -/

/-- C8 counterexample: the savings projection for identical user inputs
(goal 10000, monthly 500, current 0, both rates 0) invoked at clock
reading 0 and at clock reading 1 differs: the recorded dates follow the
wall clock, so the two results are not identical. -/
theorem savings_projection_depends_on_clock :
    solveSavingsGoal 10000 500 0 0 0 0 ≠ solveSavingsGoal 10000 500 0 0 0 1 := by
  have heval : ∀ t : ℤ, solveSavingsGoal 10000 500 0 0 0 t
      = .timeToGoal 20 (savingsProj 0 500 t 0 21) := by
    intro t
    unfold solveSavingsGoal
    rw [if_neg (by norm_num), if_neg (by norm_num)]
    norm_num
    rfl
  rw [heval 0, heval 1]
  intro h
  injection h with _ h2
  rw [show (21 : ℕ) = 20 + 1 from rfl] at h2
  simp only [savingsProj, List.cons.injEq, Prod.mk.injEq] at h2
  exact absurd h2.1.1 (by norm_num)

/-- C8 amended: the four calculations are pure in their numeric inputs —
the month count and projected amounts of the savings solver and the
nominal value, real value and cumulative contributions of the investment
simulator are identical across invocations at different clock readings;
only the wall-clock date fields differ.  (The budget and loan
calculations take no clock at all.) -/
theorem calculations_numerically_pure
    (ga ms cs ir infl init contrib aR aI : ℝ) (years : ℕ) (t1 t2 : ℤ) :
    savingsNumeric (solveSavingsGoal ga ms cs ir infl t1)
      = savingsNumeric (solveSavingsGoal ga ms cs ir infl t2) ∧
    (simulateInvestment init contrib years aR aI t1).map invNumeric
      = (simulateInvestment init contrib years aR aI t2).map invNumeric := by
  constructor
  · unfold solveSavingsGoal
    by_cases h1 : ms ≤ 0
    · rw [if_pos h1, if_pos h1]
    · rw [if_neg h1, if_neg h1]
      by_cases h2 : ga - cs ≤ 0
      · rw [if_pos h2, if_pos h2]
      · rw [if_neg h2, if_neg h2]
        dsimp only
        by_cases h3 : ((1 + ir / 100) / (1 + infl / 100) - 1) / 12 ≠ 0 ∧
            1 + (((1 + ir / 100) / (1 + infl / 100) - 1) / 12 * (ga - cs)) / ms ≤ 0
        · rw [if_pos h3, if_pos h3]
        · rw [if_neg h3, if_neg h3]
          simp only [savingsNumeric, Option.some.injEq, Prod.mk.injEq]
          exact ⟨trivial, savingsProj_snd _ _ _ t1 t2 _⟩
  · exact simLoop_invStep_numeric _ _ _ _ _ _ rfl

/-! ## Claims C4 and C9: investment simulator -/

theorem simulateInvestment_eq (init contrib : ℝ) (years : ℕ) (aR aI : ℝ)
    (now : ℤ) :
    simulateInvestment init contrib years aR aI now
      = simLoop (invStep ((1 + aR / 100) ^ ((1 : ℝ) / 12) - 1)
          ((1 + ((1 + aR / 100) ^ ((1 : ℝ) / 12) - 1))
              / (1 + ((1 + aI / 100) ^ ((1 : ℝ) / 12) - 1)) - 1)
          contrib)
        ⟨now, init, init, init⟩ (years * 12) := rfl

/-- C4: for nonnegative initial investment, contribution and rates and
years ≥ 1, the simulator produces exactly years*12 + 1 entries indexed
0..months, entry 0 holds (initialInvestment, initialInvestment) as
nominal and real value, and with monthlyReturn = (1+annualReturn/100)
raised to the 1/12 minus 1 (twelfth-root compounding, not division by
12), monthlyInflation likewise, and realMonthlyReturn =
(1+monthlyReturn)/(1+monthlyInflation) - 1, each successive entry applies
nominal' = nominal*(1+monthlyReturn) + contribution and real' =
real*(1+realMonthlyReturn) + contribution. -/
theorem investment_series_construction
    (init contrib aR aI : ℝ) (years : ℕ) (now : ℤ)
    (_hinit : 0 ≤ init) (_hcontrib : 0 ≤ contrib) (_hyears : 1 ≤ years)
    (_hret : 0 ≤ aR) (_hinfl : 0 ≤ aI) :
    (simulateInvestment init contrib years aR aI now).length = years * 12 + 1 ∧
    ((simulateInvestment init contrib years aR aI now)[0]?).map
      (fun s => (s.nominal, s.real_value)) = some (init, init) ∧
    (∀ m < years * 12, ∀ s : InvState,
      (simulateInvestment init contrib years aR aI now)[m]? = some s →
      ((simulateInvestment init contrib years aR aI now)[m + 1]?).map
        (fun s' => (s'.nominal, s'.real_value))
        = some
            (s.nominal * (1 + ((1 + aR / 100) ^ ((1 : ℝ) / 12) - 1)) + contrib,
             s.real_value * (1 + ((1 + ((1 + aR / 100) ^ ((1 : ℝ) / 12) - 1))
                 / (1 + ((1 + aI / 100) ^ ((1 : ℝ) / 12) - 1)) - 1)) + contrib)) := by
  rw [simulateInvestment_eq]
  refine ⟨simLoop_length _ _ _, ?_, ?_⟩
  · rw [simLoop_get _ _ 0 _ (Nat.zero_le _)]
    rfl
  · intro m hm s hs
    rw [simLoop_get _ _ m _ (Nat.le_of_lt hm)] at hs
    rw [simLoop_get _ _ (m + 1) _ hm]
    have hs' : s = (invStep ((1 + aR / 100) ^ ((1 : ℝ) / 12) - 1)
        ((1 + ((1 + aR / 100) ^ ((1 : ℝ) / 12) - 1))
            / (1 + ((1 + aI / 100) ^ ((1 : ℝ) / 12) - 1)) - 1)
        contrib)^[m] ⟨now, init, init, init⟩ := by
      injection hs with hs
      exact hs.symm
    rw [Function.iterate_succ_apply', hs']
    rfl

/-- C4 witness: the series construction at initial 0, contribution 0,
one year, both rates 0, clock 0. -/
theorem investment_series_construction_witness :
    (0 : ℝ) ≤ 0 ∧ (1 : ℕ) ≤ 1 ∧
    ((simulateInvestment 0 0 1 0 0 0).length = 1 * 12 + 1 ∧
     ((simulateInvestment 0 0 1 0 0 0)[0]?).map
       (fun s => (s.nominal, s.real_value)) = some (0, 0) ∧
     (∀ m < 1 * 12, ∀ s : InvState,
       (simulateInvestment 0 0 1 0 0 0)[m]? = some s →
       ((simulateInvestment 0 0 1 0 0 0)[m + 1]?).map
         (fun s' => (s'.nominal, s'.real_value))
         = some
             (s.nominal * (1 + ((1 + (0 : ℝ) / 100) ^ ((1 : ℝ) / 12) - 1)) + 0,
              s.real_value * (1 + ((1 + ((1 + (0 : ℝ) / 100) ^ ((1 : ℝ) / 12) - 1))
                  / (1 + ((1 + (0 : ℝ) / 100) ^ ((1 : ℝ) / 12) - 1)) - 1)) + 0))) :=
  ⟨le_refl 0, le_refl 1,
    investment_series_construction 0 0 0 0 1 0 (le_refl 0) (le_refl 0)
      (le_refl 1) (le_refl 0) (le_refl 0)⟩

/-- C9: the cumulative-contributions counter starts at the initial
investment, so the entry at month m records initialInvestment +
m * monthlyContribution; consequently the reported total contributions
include the initial investment and the nominal and real growth figures
are final value minus (initialInvestment + months*monthlyContribution). -/
theorem investment_contributions (init contrib aR aI : ℝ) (years : ℕ)
    (now : ℤ) (m : ℕ) (hm : m ≤ years * 12) :
    ((simulateInvestment init contrib years aR aI now)[m]?).map
      (fun s => s.contrib_total) = some (init + m * contrib) ∧
    (∃ s : InvState,
      (simulateInvestment init contrib years aR aI now).getLast? = some s ∧
      s.contrib_total = init + (years * 12) * contrib ∧
      investmentReport init contrib years aR aI now
        = (s.nominal - (init + (years * 12) * contrib),
           s.real_value - (init + (years * 12) * contrib))) := by
  constructor
  · rw [simulateInvestment_eq, simLoop_get _ _ m _ hm]
    rw [Option.map_some']
    rw [invStep_iterate_contrib]
  · refine ⟨(invStep ((1 + aR / 100) ^ ((1 : ℝ) / 12) - 1)
        ((1 + ((1 + aR / 100) ^ ((1 : ℝ) / 12) - 1))
            / (1 + ((1 + aI / 100) ^ ((1 : ℝ) / 12) - 1)) - 1)
        contrib)^[years * 12] ⟨now, init, init, init⟩, ?_, ?_, ?_⟩
    · rw [simulateInvestment_eq]
      exact simLoop_getLast _ _ _
    · rw [invStep_iterate_contrib]
      dsimp only
      push_cast
      ring
    · unfold investmentReport
      rw [simulateInvestment_eq, simLoop_getLast]
      dsimp only
      rw [invStep_iterate_contrib]
      dsimp only
      simp only [Prod.mk.injEq]
      constructor <;> (push_cast; ring)

/-- C9 witness: contributions at month 5 of a one-year simulation with
initial investment 1 and monthly contribution 2. -/
theorem investment_contributions_witness :
    (5 : ℕ) ≤ 1 * 12 ∧
    (((simulateInvestment 1 2 1 0 0 0)[5]?).map
      (fun s => s.contrib_total) = some (1 + ((5 : ℕ) : ℝ) * 2) ∧
    (∃ s : InvState,
      (simulateInvestment 1 2 1 0 0 0).getLast? = some s ∧
      s.contrib_total = 1 + ((1 : ℕ) : ℝ) * 12 * 2 ∧
      investmentReport 1 2 1 0 0 0
        = (s.nominal - (1 + ((1 : ℕ) : ℝ) * 12 * 2),
           s.real_value - (1 + ((1 : ℕ) : ℝ) * 12 * 2)))) :=
  ⟨by norm_num, investment_contributions 1 2 0 0 1 0 5 (by norm_num)⟩

end Fincalc
